import Mathlib

/-!
Shallow embedding of ns-3's `src/core/model/attribute-accessor-helper.h`.

The header defines `AccessorHelper<T,U>` (the generic `Set`/`Get` that perform
the two `dynamic_cast` narrowings and forward to virtual `DoSet`/`DoGet`), the
concrete accessor variants produced by the `DoMakeAccessorHelperOne` /
`DoMakeAccessorHelperTwo` overloads (data member, lone getter, lone void
setter, getter+void setter, getter+bool setter), and the `MakeAccessorHelper`
entry points that forward to them.

Modelling choices:
- `dynamic_cast` from a generic base reference (`ObjectBase*`,
  `AttributeValue&`) to a concrete type, together with mutation through the
  obtained pointer, is modelled by a `Prism`: `get` is the checked downcast
  (`none` on dynamic-type mismatch) and `put` installs a possibly modified
  concrete value back into the base slot.
- Mutation is explicit state passing: `Set` returns the success flag together
  with the resulting object state, `Get` the flag together with the resulting
  value-container state.
- The specific `AttributeValue` container `V` is characterised by the two
  operations the header uses on it: the fallible extraction
  `bool GetAccessor(U&)` (modelled `V → Option U`) and the store
  `void Set(U)` (modelled `V → U → V`).
- A `void`-returning member setter mutates the object, modelled `T → U → T`;
  a `bool`-returning one is `T → U → Bool × T`; a const getter is `T → U`.
-/

namespace Ns3

/-- Checked downcast and write-back between a generic base type `β`
(`ObjectBase` or `AttributeValue`) and a concrete type `α`, as performed by
`dynamic_cast` inside `AccessorHelper::Set`/`Get`: `get` is the cast, `none`
when the dynamic type does not match; `put` writes a (possibly modified)
concrete value back into the base slot, modelling mutation through the
obtained pointer. -/
structure Prism (β : Type) (α : Type) where
  get : β → Option α
  put : β → α → β

/-- The operations of a specific `AttributeValue` container type `V` used by
the header: the fallible extraction `bool V::GetAccessor (U &) const`
(source: `attribute.h` collaborator; used as `v->GetAccessor (tmp)`), and the
store `void V::Set (U)` (used as `v->Set (...)`).  `SU` is the plain type
extracted for setting (`AccessorTrait<U>::Result`), `GV` the plain type
stored on get. -/
structure ValueOps (V SU GV : Type) where
  GetAccessor : V → Option SU
  Set : V → GV → V

/-- One concrete `AccessorHelper<T,V>` subclass: its virtual `DoSet`, `DoGet`,
`HasGetter`, `HasSetter`.  `DoSet` returns the success flag and the updated
object state; `DoGet` the success flag and the updated value container. -/
structure AccessorOps (T V : Type) where
  DoSet : T → V → Bool × T
  DoGet : T → V → Bool × V
  HasGetter : Bool
  HasSetter : Bool

/-- `AccessorHelper<T,U>::Set` (header lines 170-182): narrow `val` to the
specific container `V` first, then narrow `object` to `T`; if either cast
yields null return `false` (no other effect); otherwise forward to `DoSet`
and write the resulting object state back through the object pointer. -/
def AccessorHelper.Set {OB AV T V : Type} (op : Prism OB T) (vp : Prism AV V)
    (acc : AccessorOps T V) (object : OB) (val : AV) : Bool × OB :=
  match vp.get val with
  | none => (false, object)
  | some value =>
    match op.get object with
    | none => (false, object)
    | some obj =>
      let r := acc.DoSet obj value
      (r.1, op.put object r.2)

/-- `AccessorHelper<T,U>::Get` (header lines 196-208): narrow `val` then
`object`; on either failure return `false` leaving `val` unchanged; otherwise
forward to `DoGet` (the object is const there) and write the resulting
container state back through the value pointer. -/
def AccessorHelper.Get {OB AV T V : Type} (op : Prism OB T) (vp : Prism AV V)
    (acc : AccessorOps T V) (object : OB) (val : AV) : Bool × AV :=
  match vp.get val with
  | none => (false, val)
  | some value =>
    match op.get object with
    | none => (false, val)
    | some obj =>
      let r := acc.DoGet obj value
      (r.1, vp.put val r.2)

/-- A class data-member pointer `U T::*`: it both reads and writes the same
datum of the container object. -/
structure MemberPointer (T U : Type) where
  read : T → U
  write : T → U → T

/-- The `MemberVariable` accessor of `DoMakeAccessorHelperOne (U T::*)`
(header lines 251-285): `DoSet` extracts via `GetAccessor` into `tmp`,
returns `false` on extraction failure, else assigns the member and returns
`true`; `DoGet` stores the member into the container and returns `true`;
both capability flags are `true`. -/
def MemberVariable {T V U : Type} (vops : ValueOps V U U)
    (m : MemberPointer T U) : AccessorOps T V where
  DoSet := fun object v =>
    match vops.GetAccessor v with
    | none => (false, object)
    | some tmp => (true, m.write object tmp)
  DoGet := fun object v => (true, vops.Set v (m.read object))
  HasGetter := true
  HasSetter := true

/-- The `MemberMethod` accessor of
`DoMakeAccessorHelperOne (U (T::*)(void) const)` (header lines 308-334):
`DoSet` returns `false`; `DoGet` stores the getter's result and returns
`true`; `HasGetter` is `true`, `HasSetter` is `false`. -/
def MemberMethodGetter {T V SU U : Type} (vops : ValueOps V SU U)
    (getter : T → U) : AccessorOps T V where
  DoSet := fun object _ => (false, object)
  DoGet := fun object v => (true, vops.Set v (getter object))
  HasGetter := true
  HasSetter := false

/-- The `MemberMethod` accessor of `DoMakeAccessorHelperOne (void (T::*)(U))`
(header lines 358-390): `DoSet` extracts via `GetAccessor`, returns `false`
on extraction failure, else invokes the void setter and returns `true`;
`DoGet` returns `false`; `HasGetter` is `false`, `HasSetter` is `true`. -/
def MemberMethodSetterVoid {T V U GV : Type} (vops : ValueOps V U GV)
    (setter : T → U → T) : AccessorOps T V where
  DoSet := fun object v =>
    match vops.GetAccessor v with
    | none => (false, object)
    | some tmp => (true, setter object tmp)
  DoGet := fun _ v => (false, v)
  HasGetter := false
  HasSetter := true

/-- The `MemberMethod` accessor of
`DoMakeAccessorHelperTwo (void (T::*)(U), V (T::*)(void) const)`
(header lines 422-459): `DoSet` as in the lone void-setter variant; `DoGet`
stores the getter's result and returns `true`; both flags `true`. -/
def MemberMethodTwoVoid {T V U GV : Type} (vops : ValueOps V U GV)
    (setter : T → U → T) (getter : T → GV) : AccessorOps T V where
  DoSet := fun object v =>
    match vops.GetAccessor v with
    | none => (false, object)
    | some tmp => (true, setter object tmp)
  DoGet := fun object v => (true, vops.Set v (getter object))
  HasGetter := true
  HasSetter := true

/-- The `MemberMethod` accessor of
`DoMakeAccessorHelperTwo (bool (T::*)(U), V (T::*)(void) const)`
(header lines 505-542): `DoSet` extracts via `GetAccessor`, returns `false`
on extraction failure, else invokes the bool setter and returns exactly its
result, the object left in the state the setter produced; `DoGet` stores the
getter's result; both flags `true`. -/
def MemberMethodTwoBool {T V U GV : Type} (vops : ValueOps V U GV)
    (setter : T → U → Bool × T) (getter : T → GV) : AccessorOps T V where
  DoSet := fun object v =>
    match vops.GetAccessor v with
    | none => (false, object)
    | some tmp => setter object tmp
  DoGet := fun object v => (true, vops.Set v (getter object))
  HasGetter := true
  HasSetter := true

/-- The possible single binding references `MakeAccessorHelper (T1 a1)` can
receive: a data-member pointer `U T::*`, a const getter
`U (T::*)(void) const`, a void setter `void (T::*)(U)`, or a bool setter
`bool (T::*)(U)` (the last is listed by the header's own documentation,
lines 41-51). -/
inductive DescriptorOne (T U : Type) where
  | memberVariable : MemberPointer T U → DescriptorOne T U
  | getter : (T → U) → DescriptorOne T U
  | setterVoid : (T → U → T) → DescriptorOne T U
  | setterBool : (T → U → Bool × T) → DescriptorOne T U

/-- Overload resolution of `DoMakeAccessorHelperOne`.  The header declares
exactly three overloads: data member (line 248), const getter (line 305) and
void setter (line 355).  A lone bool-returning setter `bool (T::*)(U)`
matches neither the getter overload (it takes an argument and is non-const)
nor the void-setter overload (wrong return type); deducing it against the
data-member overload `U T::*` requires `U` to be the function type
`bool(U0)`, whose instantiation is ill-formed (`AccessorTrait<U>::Result tmp`
declares a variable of function type), so construction fails: modelled by
`none`. -/
def DoMakeAccessorHelperOne {T V U : Type} (vops : ValueOps V U U) :
    DescriptorOne T U → Option (AccessorOps T V)
  | .memberVariable m => some (MemberVariable vops m)
  | .getter g => some (MemberMethodGetter vops g)
  | .setterVoid s => some (MemberMethodSetterVoid vops s)
  | .setterBool _ => none

/-- The possible pairs of binding references `MakeAccessorHelper (a1, a2)`
can receive, distinguished by kind and argument order, matching the four
`DoMakeAccessorHelperTwo` overloads (header lines 415, 471, 498, 554). -/
inductive DescriptorTwo (T U GV : Type) where
  | setterVoidGetter : (T → U → T) → (T → GV) → DescriptorTwo T U GV
  | getterSetterVoid : (T → GV) → (T → U → T) → DescriptorTwo T U GV
  | setterBoolGetter : (T → U → Bool × T) → (T → GV) → DescriptorTwo T U GV
  | getterSetterBool : (T → GV) → (T → U → Bool × T) → DescriptorTwo T U GV

/-- Overload resolution of `DoMakeAccessorHelperTwo`.  The
(getter, setter) overloads (header lines 471-475 and 554-558) forward to the
(setter, getter) ones with the arguments swapped, so both orders produce the
same accessor. -/
def DoMakeAccessorHelperTwo {T V U GV : Type} (vops : ValueOps V U GV) :
    DescriptorTwo T U GV → AccessorOps T V
  | .setterVoidGetter s g => MemberMethodTwoVoid vops s g
  | .getterSetterVoid g s => MemberMethodTwoVoid vops s g
  | .setterBoolGetter s g => MemberMethodTwoBool vops s g
  | .getterSetterBool g s => MemberMethodTwoBool vops s g

/-- `MakeAccessorHelper (T1 a1)` (header lines 561-567): forwards to
`DoMakeAccessorHelperOne<V>`. -/
def MakeAccessorHelper {T V U : Type} (vops : ValueOps V U U)
    (a1 : DescriptorOne T U) : Option (AccessorOps T V) :=
  DoMakeAccessorHelperOne vops a1

/-- `MakeAccessorHelper (T1 a1, T2 a2)` (header lines 569-575): forwards to
`DoMakeAccessorHelperTwo<V>`. -/
def MakeAccessorHelperPair {T V U GV : Type} (vops : ValueOps V U GV)
    (a : DescriptorTwo T U GV) : AccessorOps T V :=
  DoMakeAccessorHelperTwo vops a

/-! Concrete instances used to witness the hypotheses of the theorems below:
a base type `Sum Nat Bool` whose `Nat` side is the concrete class, and `Nat`
containers whose extraction always succeeds, or always fails. -/

/-- A concrete prism: base `Sum Nat Bool`, concrete type `Nat`; the cast
succeeds exactly on the left summand. -/
def natPrism : Prism (Sum Nat Bool) Nat where
  get := fun b => match b with | Sum.inl n => some n | Sum.inr _ => none
  put := fun _ a => Sum.inl a

/-- Concrete container operations on `Nat` whose extraction always succeeds. -/
def natValueOps : ValueOps Nat Nat Nat where
  GetAccessor := fun v => some v
  Set := fun _ u => u

/-- Concrete container operations on `Nat` whose extraction always fails. -/
def natValueOpsNoExtract : ValueOps Nat Nat Nat where
  GetAccessor := fun _ => none
  Set := fun _ u => u

/-- A concrete data-member pointer on a one-field object. -/
def natMember : MemberPointer Nat Nat where
  read := fun t => t
  write := fun _ u => u

/-- Claim C1: the claim asserts that `MakeAccessorHelper<V>` applied to a
single bool-returning member setter `bool (T::*)(U)` resolves successfully
and yields a Set-only (bool) accessor.  The header's own documentation
(lines 41-51) promises exactly that, but `DoMakeAccessorHelperOne` declares
no overload matching a lone bool setter, so construction fails instead of
producing any accessor: the code contradicts its documentation. -/
theorem makeAccessorHelper_lone_bool_setter_fails {T V U : Type}
    (vops : ValueOps V U U) (s : T → U → Bool × T) :
    MakeAccessorHelper (T := T) (V := V) vops (DescriptorOne.setterBool s)
      = none := rfl

/-- Claim C2: for every accessor variant, if the value narrowing or the
object narrowing fails, `Set` and `Get` return `false` and leave both the
container object and the value container exactly as they were. -/
theorem set_get_narrowing_failure_no_effect {OB AV T V : Type}
    (op : Prism OB T) (vp : Prism AV V) (acc : AccessorOps T V)
    (object : OB) (val : AV)
    (h : vp.get val = none ∨ op.get object = none) :
    AccessorHelper.Set op vp acc object val = (false, object) ∧
    AccessorHelper.Get op vp acc object val = (false, val) := by
  unfold AccessorHelper.Set AccessorHelper.Get
  rcases h with h | h
  · simp [h]
  · cases hv : vp.get val <;> simp [hv, h]

/-- Claim C2, witness: a field accessor on the `Nat` model, handed a value
container whose narrowing fails, returns `false` from both `Set` and `Get`
with the object and the value container unchanged. -/
theorem set_get_narrowing_failure_no_effect_witness :
    (natPrism.get (Sum.inr true) = none ∨ natPrism.get (Sum.inl 0) = none) ∧
    (AccessorHelper.Set natPrism natPrism (MemberVariable natValueOps natMember)
        (Sum.inl 0) (Sum.inr true) = (false, Sum.inl 0) ∧
     AccessorHelper.Get natPrism natPrism (MemberVariable natValueOps natMember)
        (Sum.inl 0) (Sum.inr true) = (false, Sum.inr true)) :=
  ⟨Or.inl rfl,
   set_get_narrowing_failure_no_effect natPrism natPrism
     (MemberVariable natValueOps natMember) (Sum.inl 0) (Sum.inr true)
     (Or.inl rfl)⟩

/-- Claim C5: every accessor the binding resolver produces has capability
flags fixed at construction by the binding shape: field reference →
(true, true); lone getter → (true, false); lone (void) setter →
(false, true); any getter+setter pair → (true, true). -/
theorem resolver_capability_flags {T V U GV : Type}
    (vops : ValueOps V U U) (vops2 : ValueOps V U GV) :
    (∀ m : MemberPointer T U,
      (MakeAccessorHelper (V := V) vops (DescriptorOne.memberVariable m)).map
        (fun a => (a.HasGetter, a.HasSetter)) = some (true, true)) ∧
    (∀ g : T → U,
      (MakeAccessorHelper (V := V) vops (DescriptorOne.getter g)).map
        (fun a => (a.HasGetter, a.HasSetter)) = some (true, false)) ∧
    (∀ s : T → U → T,
      (MakeAccessorHelper (V := V) vops (DescriptorOne.setterVoid s)).map
        (fun a => (a.HasGetter, a.HasSetter)) = some (false, true)) ∧
    (∀ d : DescriptorTwo T U GV,
      ((MakeAccessorHelperPair (V := V) vops2 d).HasGetter,
       (MakeAccessorHelperPair (V := V) vops2 d).HasSetter) = (true, true)) := by
  refine ⟨fun m => rfl, fun g => rfl, fun s => rfl, fun d => ?_⟩
  cases d <;> rfl

/-- Claim C9: supplying the getter and the setter in either order to the
two-reference `MakeAccessorHelper` produces the very same accessor (the
flipped overloads forward to the canonical ones), for both the void- and
the bool-returning setter; hence `Set`, `Get`, `HasGetter` and `HasSetter`
agree on every input. -/
theorem pair_argument_order_irrelevant {OB AV T V U GV : Type}
    (vops : ValueOps V U GV) (s : T → U → T) (sb : T → U → Bool × T)
    (g : T → GV) (op : Prism OB T) (vp : Prism AV V)
    (object : OB) (val : AV) :
    (MakeAccessorHelperPair (V := V) vops (DescriptorTwo.getterSetterVoid g s)
      = MakeAccessorHelperPair vops (DescriptorTwo.setterVoidGetter s g)) ∧
    (MakeAccessorHelperPair (V := V) vops (DescriptorTwo.getterSetterBool g sb)
      = MakeAccessorHelperPair vops (DescriptorTwo.setterBoolGetter sb g)) ∧
    (AccessorHelper.Set op vp
        (MakeAccessorHelperPair vops (DescriptorTwo.getterSetterVoid g s)) object val
      = AccessorHelper.Set op vp
        (MakeAccessorHelperPair vops (DescriptorTwo.setterVoidGetter s g)) object val) ∧
    (AccessorHelper.Get op vp
        (MakeAccessorHelperPair vops (DescriptorTwo.getterSetterVoid g s)) object val
      = AccessorHelper.Get op vp
        (MakeAccessorHelperPair vops (DescriptorTwo.setterVoidGetter s g)) object val) ∧
    (AccessorHelper.Set op vp
        (MakeAccessorHelperPair vops (DescriptorTwo.getterSetterBool g sb)) object val
      = AccessorHelper.Set op vp
        (MakeAccessorHelperPair vops (DescriptorTwo.setterBoolGetter sb g)) object val) ∧
    (AccessorHelper.Get op vp
        (MakeAccessorHelperPair vops (DescriptorTwo.getterSetterBool g sb)) object val
      = AccessorHelper.Get op vp
        (MakeAccessorHelperPair vops (DescriptorTwo.setterBoolGetter sb g)) object val) :=
  ⟨rfl, rfl, rfl, rfl, rfl, rfl⟩

/-- Claim C3: for every setter-bearing variant (field, lone void setter,
getter+void setter, getter+bool setter), when both narrowings succeed but
`GetAccessor` fails, `Set` returns `false` and the object is untouched — the
result is the same for every possible member pointer and setter function, so
the bound storage is never written and the setter is never invoked. -/
theorem set_conversion_failure_short_circuits {OB AV T V U : Type}
    (op : Prism OB T) (vp : Prism AV V) (vops : ValueOps V U U)
    (m : MemberPointer T U) (s : T → U → T) (sb : T → U → Bool × T)
    (g : T → U) (object : OB) (val : AV) (w : V) (t : T)
    (hv : vp.get val = some w) (ho : op.get object = some t)
    (hput : op.put object t = object)
    (hfail : vops.GetAccessor w = none) :
    AccessorHelper.Set op vp (MemberVariable vops m) object val
      = (false, object) ∧
    AccessorHelper.Set op vp (MemberMethodSetterVoid vops s) object val
      = (false, object) ∧
    AccessorHelper.Set op vp (MemberMethodTwoVoid vops s g) object val
      = (false, object) ∧
    AccessorHelper.Set op vp (MemberMethodTwoBool vops sb g) object val
      = (false, object) := by
  refine ⟨?_, ?_, ?_, ?_⟩ <;>
    simp [AccessorHelper.Set, MemberVariable, MemberMethodSetterVoid,
      MemberMethodTwoVoid, MemberMethodTwoBool, hv, ho, hput, hfail]

/-- Claim C3, witness: on the `Nat` model with an always-failing extraction,
all four setter-bearing variants return `false` from `Set` and leave the
object `Sum.inl 5` unchanged. -/
theorem set_conversion_failure_short_circuits_witness :
    (natPrism.get (Sum.inl 7) = some 7 ∧ natPrism.get (Sum.inl 5) = some 5 ∧
     natPrism.put (Sum.inl 5) 5 = Sum.inl 5 ∧
     natValueOpsNoExtract.GetAccessor 7 = none) ∧
    (AccessorHelper.Set natPrism natPrism
        (MemberVariable natValueOpsNoExtract natMember)
        (Sum.inl 5) (Sum.inl 7) = (false, Sum.inl 5) ∧
     AccessorHelper.Set natPrism natPrism
        (MemberMethodSetterVoid natValueOpsNoExtract natMember.write)
        (Sum.inl 5) (Sum.inl 7) = (false, Sum.inl 5) ∧
     AccessorHelper.Set natPrism natPrism
        (MemberMethodTwoVoid natValueOpsNoExtract natMember.write natMember.read)
        (Sum.inl 5) (Sum.inl 7) = (false, Sum.inl 5) ∧
     AccessorHelper.Set natPrism natPrism
        (MemberMethodTwoBool natValueOpsNoExtract
          (fun _ u => (false, u)) natMember.read)
        (Sum.inl 5) (Sum.inl 7) = (false, Sum.inl 5)) :=
  ⟨⟨rfl, rfl, rfl, rfl⟩,
   set_conversion_failure_short_circuits natPrism natPrism natValueOpsNoExtract
     natMember natMember.write (fun _ u => (false, u)) natMember.read
     (Sum.inl 5) (Sum.inl 7) 7 5 rfl rfl rfl rfl⟩

/-- Claim C4: round-trip for a field accessor and for a getter+setter
accessor addressing the same datum: assuming the container's store and
extraction are mutually inverse on `v` (and the member pointer reads back
what it wrote), a successful `Set` with a container holding `v` followed by
a `Get` into another container succeeds and the extracted value is `v`. -/
theorem field_accessor_round_trip {OB AV T V U : Type}
    (op : Prism OB T) (vp : Prism AV V)
    (vops : ValueOps V U U) (m : MemberPointer T U)
    (object : OB) (valIn valOut : AV) (w wOut : V) (t : T) (v : U)
    (hin : vp.get valIn = some w)
    (hobj : op.get object = some t)
    (hext : vops.GetAccessor w = some v)
    (hopget : op.get (op.put object (m.write t v)) = some (m.write t v))
    (hread : m.read (m.write t v) = v)
    (hout : vp.get valOut = some wOut)
    (hvpget : vp.get (vp.put valOut (vops.Set wOut v))
      = some (vops.Set wOut v))
    (hinv : vops.GetAccessor (vops.Set wOut v) = some v) :
    ((AccessorHelper.Set op vp (MemberVariable vops m) object valIn).1 = true ∧
     (AccessorHelper.Get op vp (MemberVariable vops m)
        (AccessorHelper.Set op vp (MemberVariable vops m) object valIn).2
        valOut).1 = true ∧
     (vp.get (AccessorHelper.Get op vp (MemberVariable vops m)
        (AccessorHelper.Set op vp (MemberVariable vops m) object valIn).2
        valOut).2).bind vops.GetAccessor = some v) ∧
    ((AccessorHelper.Set op vp (MemberMethodTwoVoid vops m.write m.read)
        object valIn).1 = true ∧
     (AccessorHelper.Get op vp (MemberMethodTwoVoid vops m.write m.read)
        (AccessorHelper.Set op vp (MemberMethodTwoVoid vops m.write m.read)
          object valIn).2 valOut).1 = true ∧
     (vp.get (AccessorHelper.Get op vp (MemberMethodTwoVoid vops m.write m.read)
        (AccessorHelper.Set op vp (MemberMethodTwoVoid vops m.write m.read)
          object valIn).2 valOut).2).bind vops.GetAccessor = some v) := by
  constructor <;>
    simp [AccessorHelper.Set, AccessorHelper.Get, MemberVariable,
      MemberMethodTwoVoid, hin, hobj, hext, hopget, hread, hout, hvpget, hinv]

/-- Claim C4, witness: on the `Nat` model, setting `42` through the field
accessor (and through the getter+setter pair over the same member) and
reading it back extracts `42`. -/
theorem field_accessor_round_trip_witness :
    (natPrism.get (Sum.inl 42) = some 42 ∧ natPrism.get (Sum.inl 1) = some 1 ∧
     natValueOps.GetAccessor 42 = some 42 ∧ natPrism.get (Sum.inl 9) = some 9 ∧
     natMember.read (natMember.write 1 42) = 42 ∧
     natValueOps.GetAccessor (natValueOps.Set 9 42) = some 42) ∧
    ((AccessorHelper.Set natPrism natPrism (MemberVariable natValueOps natMember)
        (Sum.inl 1) (Sum.inl 42)).1 = true ∧
     (AccessorHelper.Get natPrism natPrism (MemberVariable natValueOps natMember)
        (AccessorHelper.Set natPrism natPrism
          (MemberVariable natValueOps natMember) (Sum.inl 1) (Sum.inl 42)).2
        (Sum.inl 9)).1 = true ∧
     (natPrism.get (AccessorHelper.Get natPrism natPrism
        (MemberVariable natValueOps natMember)
        (AccessorHelper.Set natPrism natPrism
          (MemberVariable natValueOps natMember) (Sum.inl 1) (Sum.inl 42)).2
        (Sum.inl 9)).2).bind natValueOps.GetAccessor = some 42) ∧
    ((AccessorHelper.Set natPrism natPrism
        (MemberMethodTwoVoid natValueOps natMember.write natMember.read)
        (Sum.inl 1) (Sum.inl 42)).1 = true ∧
     (AccessorHelper.Get natPrism natPrism
        (MemberMethodTwoVoid natValueOps natMember.write natMember.read)
        (AccessorHelper.Set natPrism natPrism
          (MemberMethodTwoVoid natValueOps natMember.write natMember.read)
          (Sum.inl 1) (Sum.inl 42)).2 (Sum.inl 9)).1 = true ∧
     (natPrism.get (AccessorHelper.Get natPrism natPrism
        (MemberMethodTwoVoid natValueOps natMember.write natMember.read)
        (AccessorHelper.Set natPrism natPrism
          (MemberMethodTwoVoid natValueOps natMember.write natMember.read)
          (Sum.inl 1) (Sum.inl 42)).2 (Sum.inl 9)).2).bind
       natValueOps.GetAccessor = some 42) :=
  ⟨⟨rfl, rfl, rfl, rfl, rfl, rfl⟩,
   (field_accessor_round_trip natPrism natPrism natValueOps natMember
     (Sum.inl 1) (Sum.inl 42) (Sum.inl 9) 42 9 1 42
     rfl rfl rfl rfl rfl rfl rfl rfl).1,
   (field_accessor_round_trip natPrism natPrism natValueOps natMember
     (Sum.inl 1) (Sum.inl 42) (Sum.inl 9) 42 9 1 42
     rfl rfl rfl rfl rfl rfl rfl rfl).2⟩

/-- Claim C6: on a Get-only accessor, `Set` returns `false` for every object
and value input (also when both narrowings succeed), and the accessor never
invokes the container's extraction: it is unchanged when the extraction
operation is replaced while the store is kept.  Symmetrically, on a Set-only
accessor `Get` returns `false` for every input. -/
theorem capability_absence_always_false {OB AV T V SU U GV : Type}
    (op : Prism OB T) (vp : Prism AV V)
    (vops vops' : ValueOps V SU U) (vops2 : ValueOps V U GV)
    (g : T → U) (s : T → U → T) (object : OB) (val : AV)
    (hset : vops.Set = vops'.Set) :
    (AccessorHelper.Set op vp (MemberMethodGetter vops g) object val).1
      = false ∧
    MemberMethodGetter (T := T) vops g = MemberMethodGetter vops' g ∧
    (AccessorHelper.Get op vp (MemberMethodSetterVoid vops2 s) object val).1
      = false := by
  refine ⟨?_, ?_, ?_⟩
  · cases hv : vp.get val <;> cases ho : op.get object <;>
      simp [AccessorHelper.Set, MemberMethodGetter, hv, ho]
  · simp only [MemberMethodGetter, hset]
  · cases hv : vp.get val <;> cases ho : op.get object <;>
      simp [AccessorHelper.Get, MemberMethodSetterVoid, hv, ho]

/-- Claim C6, witness: on the `Nat` model with both narrowings succeeding,
`Set` on a Get-only accessor and `Get` on a Set-only accessor return
`false`, and the Get-only accessor is identical under an extraction
operation that always fails. -/
theorem capability_absence_always_false_witness :
    natValueOps.Set = natValueOpsNoExtract.Set ∧
    ((AccessorHelper.Set natPrism natPrism
        (MemberMethodGetter natValueOps natMember.read)
        (Sum.inl 3) (Sum.inl 4)).1 = false ∧
     MemberMethodGetter natValueOps natMember.read
       = MemberMethodGetter natValueOpsNoExtract natMember.read ∧
     (AccessorHelper.Get natPrism natPrism
        (MemberMethodSetterVoid natValueOps natMember.write)
        (Sum.inl 3) (Sum.inl 4)).1 = false) :=
  ⟨rfl,
   capability_absence_always_false natPrism natPrism natValueOps
     natValueOpsNoExtract natValueOps natMember.read natMember.write
     (Sum.inl 3) (Sum.inl 4) rfl⟩

/-- Claim C7: for the accessor built from a bool-returning setter and a
getter, once both narrowings and the extraction succeed, `Set` returns
exactly the boolean the setter returned, and the object is left in whatever
state the setter produced — no rollback when that boolean is `false`. -/
theorem bool_setter_set_mirrors_setter {OB AV T V U GV : Type}
    (op : Prism OB T) (vp : Prism AV V) (vops : ValueOps V U GV)
    (s : T → U → Bool × T) (g : T → GV)
    (object : OB) (val : AV) (w : V) (t : T) (u : U) (b : Bool) (t' : T)
    (hv : vp.get val = some w) (ho : op.get object = some t)
    (hext : vops.GetAccessor w = some u) (hs : s t u = (b, t')) :
    AccessorHelper.Set op vp (MemberMethodTwoBool vops s g) object val
      = (b, op.put object t') := by
  simp [AccessorHelper.Set, MemberMethodTwoBool, hv, ho, hext, hs]

/-- Claim C7, witness: a setter that mutates the object and returns `false`
makes `Set` return `false` while the object keeps the setter's mutation
(`5` became `8`, not rolled back). -/
theorem bool_setter_set_mirrors_setter_witness :
    (natPrism.get (Sum.inl 7) = some 7 ∧ natPrism.get (Sum.inl 3) = some 3 ∧
     natValueOps.GetAccessor 7 = some 7 ∧
     (fun (_ : Nat) (u : Nat) => ((false : Bool), u + 1)) 3 7 = (false, 8)) ∧
    AccessorHelper.Set natPrism natPrism
      (MemberMethodTwoBool natValueOps
        (fun (_ : Nat) (u : Nat) => ((false : Bool), u + 1)) natMember.read)
      (Sum.inl 3) (Sum.inl 7) = (false, Sum.inl 8) :=
  ⟨⟨rfl, rfl, rfl, rfl⟩,
   bool_setter_set_mirrors_setter natPrism natPrism natValueOps
     (fun (_ : Nat) (u : Nat) => ((false : Bool), u + 1)) natMember.read
     (Sum.inl 3) (Sum.inl 7) 7 3 7 false 8 rfl rfl rfl rfl⟩

/-- Claim C8: for the lone void-setter accessor and the getter + void-setter
accessor, once both narrowings and the extraction succeed, `Set` invokes the
setter and returns `true` unconditionally, whatever the setter did. -/
theorem void_setter_set_unconditional_success {OB AV T V U GV : Type}
    (op : Prism OB T) (vp : Prism AV V) (vops : ValueOps V U GV)
    (s : T → U → T) (g : T → GV)
    (object : OB) (val : AV) (w : V) (t : T) (u : U)
    (hv : vp.get val = some w) (ho : op.get object = some t)
    (hext : vops.GetAccessor w = some u) :
    AccessorHelper.Set op vp (MemberMethodSetterVoid vops s) object val
      = (true, op.put object (s t u)) ∧
    AccessorHelper.Set op vp (MemberMethodTwoVoid vops s g) object val
      = (true, op.put object (s t u)) := by
  constructor <;>
    simp [AccessorHelper.Set, MemberMethodSetterVoid, MemberMethodTwoVoid,
      hv, ho, hext]

/-- Claim C8, witness: on the `Nat` model both void-setter accessors return
`true` from `Set` and install `7` into the object. -/
theorem void_setter_set_unconditional_success_witness :
    (natPrism.get (Sum.inl 7) = some 7 ∧ natPrism.get (Sum.inl 3) = some 3 ∧
     natValueOps.GetAccessor 7 = some 7) ∧
    (AccessorHelper.Set natPrism natPrism
        (MemberMethodSetterVoid natValueOps natMember.write)
        (Sum.inl 3) (Sum.inl 7) = (true, Sum.inl 7) ∧
     AccessorHelper.Set natPrism natPrism
        (MemberMethodTwoVoid natValueOps natMember.write natMember.read)
        (Sum.inl 3) (Sum.inl 7) = (true, Sum.inl 7)) :=
  ⟨⟨rfl, rfl, rfl⟩,
   void_setter_set_unconditional_success natPrism natPrism natValueOps
     natMember.write natMember.read (Sum.inl 3) (Sum.inl 7) 7 3 7
     rfl rfl rfl⟩

/-- Claim C10: on a Set-only accessor, `Get` returns `false` and leaves the
passed value container completely unchanged even when both narrowings
succeed. -/
theorem set_only_get_value_untouched {OB AV T V U GV : Type}
    (op : Prism OB T) (vp : Prism AV V) (vops : ValueOps V U GV)
    (s : T → U → T) (object : OB) (val : AV) (w : V) (t : T)
    (hv : vp.get val = some w) (ho : op.get object = some t)
    (hput : vp.put val w = val) :
    AccessorHelper.Get op vp (MemberMethodSetterVoid vops s) object val
      = (false, val) := by
  simp [AccessorHelper.Get, MemberMethodSetterVoid, hv, ho, hput]

/-- Claim C10, witness: both narrowings succeed on the `Nat` model, and
`Get` on the Set-only accessor returns `false` with the value container
`Sum.inl 7` unchanged. -/
theorem set_only_get_value_untouched_witness :
    (natPrism.get (Sum.inl 7) = some 7 ∧ natPrism.get (Sum.inl 3) = some 3 ∧
     natPrism.put (Sum.inl 7) 7 = Sum.inl 7) ∧
    AccessorHelper.Get natPrism natPrism
      (MemberMethodSetterVoid natValueOps natMember.write)
      (Sum.inl 3) (Sum.inl 7) = (false, Sum.inl 7) :=
  ⟨⟨rfl, rfl, rfl⟩,
   set_only_get_value_untouched natPrism natPrism natValueOps
     natMember.write (Sum.inl 3) (Sum.inl 7) 7 3 rfl rfl rfl⟩

end Ns3
